import Mathlib

/-!
Verification of the `uitkomst` Result library (TypeScript) against its
natural-language specification.

The repository keeps several historical iterations of the same design; the
final, converged iteration (the one re-exported by `packages/core/src/index.ts`
and exercised by `packages/core/tests`) consists of
  * the `AbstractResult` / `Ok` / `Err` classes in the second half of
    `src/unnamed/part_011` (lines 589-1084),
  * the static operations (`all`, `partition`, `wrap`, `use`, ...) in the
    second half of `src/unnamed/part_008` (lines 405-913),
  * the promise-backed `AsyncResult` class in the first half of
    `src/unnamed/part_002` (lines 1-191), and
  * the helpers (`arrayAnyAreAsync`, `block`, `isPromise`) of
    `src/unnamed/part_009`.
Where an earlier iteration is relevant (notably `Err.tryRecover` of
`src/src/result.ts`, lines 680-682 and 715-718), it is embedded separately
under an `Rts` suffix.

All embeddings below are translated from those sources.  Values held in
promises are modelled by their eventual settlement; an `AsyncResult` is
modelled by the unique `Result` it resolves to (it resolves exactly once).
-/

namespace Uitkomst

/-- A trace entry.  Source: `Trace` in `types.ts` (`interface Trace ... id: Tag`);
a `Tag` is a string or symbol, modelled here as a string. -/
structure TraceE where
  id : String
deriving DecidableEq

/-- The `Result` sum type.  Source: `src/unnamed/part_011`, classes `Ok`
(lines 892-983, field `_val`) and `Err` (lines 985-1084, fields `_val` and
`_stack`, with `_stack` defaulting to `[]` at construction: the `Err(e)`
constructor produces an `Err` with an empty trace). -/
inductive Result (A B : Type) where
  | Ok (val : A)
  | Err (val : B) (stack : List TraceE)
deriving DecidableEq

namespace Result

/-- `AbstractResult.try` (`src/unnamed/part_011` lines 754-797), specialised to
a synchronous receiver and a callback that returns a synchronous `Result`
(the hypothesis of claim C1).  The source reads:
`if (this.err) return this;` then `const res = callback(this._val);` and,
since a typed callback always returns a `Result` (so `AsyncResult.is(res)`
and `isPromise(res)` are false and `isResult(res)` is true), `return res;`.
The `ExpectedResultError` branch is unreachable under the claim's hypothesis.
(`try` is a reserved word in Lean, hence the name `tryBind`.) -/
def tryBind : Result A B → (A → Result C B) → Result C B
  | .Err e s, _ => .Err e s
  | .Ok v, f => f v

/-- Call-count instrumented version of `tryBind`: the callback threads a
counter (the "call-count spy" of the spec), incremented on each invocation.
The callback is invoked exactly where `AbstractResult.try` invokes it:
once in the `Ok` branch, never in the `Err` branch. -/
def tryS : Result A B → (A → Nat → Result C B × Nat) → Nat → Result C B × Nat
  | .Err e s, _, n => (.Err e s, n)
  | .Ok v, f, n => f v n

/-- A spy wrapping a pure callback `g`: returns `g a` and bumps the counter. -/
def spy (g : A → Result C B) : A → Nat → Result C B × Nat :=
  fun a n => (g a, n + 1)

/-- `Err.mapErr` / `Ok.mapErr` (`src/unnamed/part_011` lines 1019-1030 and
925-927), synchronous payload case: `Ok` returns `this`; `Err` returns
`new Err(callback(this._val), this._stack)` — the callback's value with the
same trace sequence. -/
def mapErr : Result A B → (B → C) → Result A C
  | .Ok v, _ => .Ok v
  | .Err e s, f => .Err (f e) s

/-- `Err.replaceErr` / `Ok.replaceErr` (`src/unnamed/part_011` lines 1044-1046
and 945-947): `Ok` returns `this`; `Err` returns `new Err(val)` — the
two-argument `Err` constructor defaults `_stack` to a fresh empty array, so
the original trace entries are dropped. -/
def replaceErr : Result A B → C → Result A C
  | .Ok v, _ => .Ok v
  | .Err _ _, v => .Err v []

/-- Value content of `Err._inheritStack` (`src/src/result.ts` lines 715-718,
identical at `src/unnamed/part_011` lines 1080-1083):
`this._stack.unshift(...stack); return this;` — the given stack is prepended
to the receiver's own trace; `Ok._inheritStack` is a no-op (`result.ts`
lines 579-581). -/
def inheritStack : Result A B → List TraceE → Result A B
  | .Ok v, _ => .Ok v
  | .Err e s, pre => .Err e (pre ++ s)

/-- `Err.tryRecover` of the `src/src/result.ts` iteration (lines 680-682):
`return callback(this._val)._inheritStack(this._stack);`, together with
`Ok.tryRecover` (lines 556-558): `return this;`. -/
def tryRecoverRts : Result A B → (B → Result A C) → Result A C
  | .Ok v, _ => .Ok v
  | .Err e s, f => inheritStack (f e) s

/-- `AbstractResult.tryRecover` of the final iteration
(`src/unnamed/part_011` lines 806-849), specialised to a synchronous receiver
and a callback returning a synchronous `Result`:
`if (this.ok) return this;` then `const res = callback(this._val);` and
`return res;` — note: unlike `src/src/result.ts` line 681, this version never
calls `_inheritStack`, so the receiver's trace is NOT prepended. -/
def tryRecoverP011 : Result A B → (B → Result A C) → Result A C
  | .Ok v, _ => .Ok v
  | .Err e _, f => f e

end Result

/-! ### Generator / yield-delegation protocol (`use`)

`use` (`src/unnamed/part_008` lines 897-913, synchronous overload) calls the
generator's `.next()` exactly once: if the step reports `done`, the final
value is wrapped as `new Ok(value)`; otherwise the suspended value is wrapped
as `new Err(value)` (two-argument constructor, hence an empty trace) and the
generator is never resumed.

A generator body is modelled as a free-monad-style program: `ret r` is the
`return r` statement, and `step res k` is `const x = yield* res; ...k x...`.
Delegating a `Result` follows `AbstractResult[Symbol.iterator]`
(`src/unnamed/part_011` lines 876-881): an `Ok` returns its payload at once
(the body continues with `k`), an `Err` yields its error payload once (the
body suspends; the `YieldError` after the `yield` is unreachable because the
driver never resumes). -/

/-- Outcome of the single `.next()` call performed by `use`: the generator
either ran to completion with a return value, or suspended with an error
payload at the first `Err` delegation. -/
inductive GenStep (B R : Type) where
  | done (r : R)
  | suspended (e : B)

/-- A generator body: a sequence of `yield*` delegations of `Result`s ending
in a `return`.  The delegated `Ok` type may differ at each step. -/
inductive GenProg (B R : Type) : Type 1 where
  | ret (r : R)
  | step {A : Type} (res : Result A B) (k : A → GenProg B R)

/-- Driving the generator through its first `.next()` call: `Ok` delegations
hand their payload to the continuation and the body keeps running; the first
`Err` delegation suspends with its payload. -/
def genNext {B R : Type} : GenProg B R → GenStep B R
  | .ret r => .done r
  | .step res k =>
    match res with
    | .Ok v => genNext (k v)
    | .Err e _ => .suspended e

/-- `use` (`src/unnamed/part_008` lines 904-906, synchronous path):
`const res = callback().next(); return res.done ? new Ok(res.value) : new Err(res.value);` -/
def use {B R : Type} (g : GenProg B R) : Result R B :=
  match genNext g with
  | .done r => .Ok r
  | .suspended e => .Err e []

/-- Number of `yield*` delegations the driver actually begins executing
(instrumentation for the "a step after the failing delegation is never
invoked" part of claim C2). -/
def genSteps {B R : Type} : GenProg B R → Nat
  | .ret _ => 0
  | .step res k =>
    match res with
    | .Ok v => 1 + genSteps (k v)
    | .Err _ _ => 1

/-- The spec's concrete example:
`use(function*(){ const a = yield* Ok(1); const b = yield* Err("stop");
const c = yield* Ok(3); return a+b+c; })`. -/
def exC2 : GenProg String Nat :=
  .step (Result.Ok 1) fun a =>
    .step (Result.Err "stop" []) fun b =>
      .step (Result.Ok 3) fun c =>
        .ret (a + b + c)

/-! ### Asynchronous handles and static/aggregate operations -/

/-- The promise-backed async handle (`src/unnamed/part_002` lines 11-160).
It resolves exactly once to an immutable `Result`; it is modelled by that
unique resolution. -/
structure AsyncResult (A B : Type) where
  resolved : Result A B
deriving DecidableEq

/-- An element of a possibly mixed array passed to the aggregate operations:
either a plain synchronous `Result` or an `AsyncResult` handle. -/
inductive ResultLike (A B : Type) where
  | sync (r : Result A B)
  | async (h : AsyncResult A B)
deriving DecidableEq

/-- Awaiting one element (`await Promise.all(results)` resolves a plain
`Result` to itself and a handle to its resolution). -/
def ResultLike.resolve : ResultLike A B → Result A B
  | .sync r => r
  | .async h => h.resolved

/-- `r instanceof AsyncResult` for an array element. -/
def isAsyncHandle : ResultLike A B → Bool
  | .sync _ => false
  | .async _ => true

/-- The array case of `AsyncResult.is` (`src/unnamed/part_002` lines 153-159):
`Array.isArray(res) && res.every((r) => r instanceof AsyncResult)`. -/
def AsyncResult.isArr (xs : List (ResultLike A B)) : Bool :=
  xs.all fun x => isAsyncHandle x

/-- `arrayAnyAreAsync` (`src/unnamed/part_009` lines 16-18):
`results.reduce((is, res) => (!is ? AsyncResult.is(res) : true), false)`. -/
def arrayAnyAreAsync (rs : List (ResultLike A B)) : Bool :=
  rs.foldl (fun is res => if is then true else isAsyncHandle res) false

/-- Whether an operation returned synchronously or as a deferred
handle/promise; in the deferred case the payload is the value the
handle/promise eventually resolves to. -/
inductive Outcome (X : Type) where
  | sync (val : X)
  | async (val : X)
deriving DecidableEq

/-- The synchronous loop of `all` (`src/unnamed/part_008` lines 453-458):
`for res: if (res.ok) values.push(res._val); else return res; return new Ok(values)`. -/
def allLoop : List (Result A B) → List A → Result (List A) B
  | [], values => .Ok values
  | r :: rest, values =>
    match r with
    | .Ok v => allLoop rest (values ++ [v])
    | .Err e s => .Err e s

/-- `all` (`src/unnamed/part_008` lines 442-459): empty-array guard returning
`new Ok([])` synchronously, then the `arrayAnyAreAsync` dispatch; the async
branch awaits every element and applies the synchronous rule to the resolved
array (the recursive `all(arr)` call on an all-synchronous, non-empty
array, inlined here). -/
def all (rs : List (ResultLike A B)) : Outcome (Result (List A) B) :=
  if rs.length = 0 then .sync (.Ok [])
  else if arrayAnyAreAsync rs then
    .async (allLoop (rs.map ResultLike.resolve) [])
  else .sync (allLoop (rs.map ResultLike.resolve) [])

/-- The synchronous loop of `partition` (`src/unnamed/part_008` lines
632-637): `if (res.ok) pair[0].push(res.unwrap()); else pair[1].push(res.unwrapErr())`. -/
def partitionLoop : List (Result A B) → List A × List B → List A × List B
  | [], pair => pair
  | r :: rest, (oks, errs) =>
    match r with
    | .Ok v => partitionLoop rest (oks ++ [v], errs)
    | .Err e _ => partitionLoop rest (oks, errs ++ [e])

/-- `partition` (`src/unnamed/part_008` lines 615-638): empty-array guard
returning `[[], []]` synchronously, `arrayAnyAreAsync` dispatch, and the
asynchronous branch awaiting all elements before applying the synchronous
rule (recursive call inlined as for `all`). -/
def partition (rs : List (ResultLike A B)) : Outcome (List A × List B) :=
  if rs.length = 0 then .sync ([], [])
  else if arrayAnyAreAsync rs then
    .async (partitionLoop (rs.map ResultLike.resolve) ([], []))
  else .sync (partitionLoop (rs.map ResultLike.resolve) ([], []))

/-- Order-preserving extraction of the `Ok` payloads (the behaviour of
`values`, `src/unnamed/part_008` lines 698-716, and the order-preserving
reading of claim C4). -/
def okValues (rs : List (Result A B)) : List A :=
  rs.filterMap fun r => match r with | .Ok v => some v | .Err _ _ => none

/-- Order-preserving extraction of the `Err` payloads (the behaviour of
`errValues`, `src/unnamed/part_008` lines 732-752). -/
def errValues (rs : List (Result A B)) : List B :=
  rs.filterMap fun r => match r with | .Ok _ => none | .Err e _ => some e

/-! ### Exception boundary (`wrap`) -/

/-- How a returned promise eventually settles. -/
inductive PromiseOutcome (A E : Type) where
  | fulfilled (v : A)
  | rejected (e : E)
deriving DecidableEq

/-- What invoking the wrapped callback does: return a plain value, return a
promise (which settles later), or throw synchronously. -/
inductive CallOutcome (A E : Type) where
  | ret (v : A)
  | retPromise (p : PromiseOutcome A E)
  | thrown (e : E)
deriving DecidableEq

/-- `wrap` (`src/unnamed/part_008` lines 834-852): inside `try`, a
non-promise return becomes `new Ok(returned)`; a returned promise becomes an
`AsyncResult` resolving to `new Ok(val)` on fulfilment and `new Err(err)` on
rejection; the `catch` branch returns `new Err(error)`. -/
def wrap : CallOutcome A E → Outcome (Result A E)
  | .ret v => .sync (.Ok v)
  | .retPromise (.fulfilled v) => .async (.Ok v)
  | .retPromise (.rejected e) => .async (.Err e [])
  | .thrown e => .sync (.Err e [])

/-- The argument type of `AsyncResult.from` (`MaybeAsyncResult` in
`types.ts`): a plain `Result`, a promise of one, or an existing handle. -/
inductive MaybeAsyncResult (A B : Type) where
  | res (r : Result A B)
  | promiseRes (r : Result A B)
  | handle (h : AsyncResult A B)
deriving DecidableEq

/-- `AsyncResult.from` (`src/unnamed/part_002` lines 142-145, equally
`src/src/result/async.ts` lines 124-130): an existing handle is returned
unchanged (`if (AsyncResult.is(res)) return res`); otherwise a new handle is
created that resolves to the given (or promised) `Result`.  (`from` is a
reserved word in Lean, hence the name `fromAny`.) -/
def AsyncResult.fromAny : MaybeAsyncResult A B → AsyncResult A B
  | .handle h => h
  | .res r => ⟨r⟩
  | .promiseRes r => ⟨r⟩

/-! ### Heap model for trace arrays (claim C8)

Claim C8 is about aliasing and in-place mutation, so the trace arrays are
modelled explicitly: a store maps array references (indices) to their
contents, and an `Err` object holds a reference to its `_stack` array. -/

/-- The store of trace arrays. -/
abbrev Store := List (List TraceE)

/-- An `Err` instance viewed through the store: its payload and the
reference of its `_stack` array. -/
structure ErrObj (B : Type) where
  val : B
  ref : Nat
deriving DecidableEq

/-- `Err.trace` of the final iteration (`src/unnamed/part_011` lines
1063-1066): `return new Err(this._val, [...this._stack, trace])` — a fresh
array is allocated holding a copy of the receiver's stack with the new entry
appended, and a new `Err` pointing at it is returned; the receiver's own
array is only read. -/
def traceOp (σ : Store) (e : ErrObj B) (g : TraceE) : ErrObj B × Store :=
  (⟨e.val, σ.length⟩, σ ++ [σ.getD e.ref [] ++ [g]])

/-- `Err._inheritStack` (`src/unnamed/part_011` lines 1080-1083):
`this._stack.unshift(...stack); return this` — the given entries are
prepended, in place, to the receiver's array, and the receiver itself is
returned. -/
def inheritStackOp (σ : Store) (r : ErrObj B) (stack : List TraceE) :
    ErrObj B × Store :=
  (r, σ.set r.ref (stack ++ σ.getD r.ref []))

end Uitkomst

namespace Uitkomst

/-- Claim C1: for every value `v`, error `e` (with any trace `s`) and callback
`f` returning a synchronous Result, `Ok(v).try(f)` returns exactly `f(v)` with
`f` invoked exactly once with `v`, while `Err(e).try(f)` returns the original
`Err` unchanged with `f` never invoked (call counts witnessed by the
instrumented `tryS` with a `spy`). -/
theorem c1_try_bind_propagation :
    ∀ (A B C : Type) (v : A) (e : B) (s : List TraceE)
      (f : A → Result C B) (g : A → Result C B),
      Result.tryBind (Result.Ok v) f = f v
      ∧ Result.tryBind (Result.Err e s : Result A B) f = Result.Err e s
      ∧ Result.tryS (Result.Ok v) (Result.spy g) 0 = (g v, 1)
      ∧ Result.tryS (Result.Err e s : Result A B) (Result.spy g) 0
          = (Result.Err e s, 0) := by
  intro A B C v e s f g
  exact ⟨rfl, rfl, rfl, rfl⟩

/-- Claim C9: for every `Err` carrying a non-empty trace `t`,
`replaceErr(v)` returns an `Err` whose trace is empty (the original entries
are dropped), whereas `mapErr(f)` returns an `Err` that carries `t` over
unchanged. -/
theorem c9_replace_err_drops_trace_map_err_keeps_it :
    ∀ (A B C D : Type) (e : B) (t : List TraceE) (v : C) (f : B → D),
      t ≠ [] →
      Result.replaceErr (Result.Err e t : Result A B) v
          = (Result.Err v [] : Result A C)
      ∧ Result.mapErr (Result.Err e t : Result A B) f
          = (Result.Err (f e) t : Result A D) := by
  intro A B C D e t v f _
  exact ⟨rfl, rfl⟩

/-- Witness for C9 at a concrete non-empty trace. -/
theorem c9_witness :
    ([⟨"a"⟩] : List TraceE) ≠ []
    ∧ Result.replaceErr (Result.Err "x" [⟨"a"⟩] : Result Nat String) (1 : Nat)
        = (Result.Err 1 [] : Result Nat Nat)
    ∧ Result.mapErr (Result.Err "x" [⟨"a"⟩] : Result Nat String)
        (fun s => String.append s "!") = Result.Err "x!" [⟨"a"⟩] := by
  have h : ([⟨"a"⟩] : List TraceE) ≠ [] := by decide
  refine ⟨h, ?_⟩
  exact c9_replace_err_drops_trace_map_err_keeps_it Nat String Nat String
    "x" [⟨"a"⟩] 1 (fun s => String.append s "!") h

/-- Claim C7 (code_bug evidence): at the failing input
`e = Err "boom" with trace [t1]` and `f = fun _ => Err "second"` (fresh, empty
trace), the final iteration's `AbstractResult.tryRecover`
(`src/unnamed/part_011` lines 806-849) returns `Err "second"` with an EMPTY
trace — the receiver's trace `[t1]` is not inherited — whereas the
`src/src/result.ts` iteration (line 681, which calls `_inheritStack`)
returns `Err "second"` with `[t1]` prepended, as the claim and the spec
require.  The final iteration implements `_inheritStack`
(`part_011` lines 1080-1083) but never calls it. -/
theorem c7_try_recover_inheritance_dropped :
    Result.tryRecoverP011 (Result.Err "boom" [⟨"t1"⟩] : Result Nat String)
        (fun _ => Result.Err "second" [])
      = Result.Err "second" []
    ∧ Result.tryRecoverRts (Result.Err "boom" [⟨"t1"⟩] : Result Nat String)
        (fun _ => Result.Err "second" [])
      = Result.Err "second" [⟨"t1"⟩] := by
  exact ⟨rfl, rfl⟩

/-! ### Lemmas about the aggregate operations -/

theorem arrayAnyAreAsync_map_sync (rs : List (Result A B)) :
    arrayAnyAreAsync (rs.map ResultLike.sync) = false := by
  induction rs with
  | nil => rfl
  | cons r t ih =>
    simpa [arrayAnyAreAsync, isAsyncHandle] using ih

theorem map_resolve_map_sync (rs : List (Result A B)) :
    (rs.map ResultLike.sync).map ResultLike.resolve = rs := by
  induction rs with
  | nil => rfl
  | cons r t ih => simp [ResultLike.resolve, ih]

/-- On a list of synchronous Results, `all` stays on the synchronous path and
runs the loop. -/
theorem all_map_sync (rs : List (Result A B)) :
    all (rs.map ResultLike.sync) = Outcome.sync (allLoop rs []) := by
  cases rs with
  | nil => rfl
  | cons r t =>
    unfold all
    rw [arrayAnyAreAsync_map_sync, map_resolve_map_sync]
    simp

theorem allLoop_map_ok (vs acc : List A) :
    allLoop (B := B) (vs.map Result.Ok) acc = Result.Ok (acc ++ vs) := by
  induction vs generalizing acc with
  | nil => simp [allLoop]
  | cons v t ih => simp [allLoop, ih]

theorem allLoop_first_err (vs : List A) (e : B) (s : List TraceE)
    (tail : List (Result A B)) (acc : List A) :
    allLoop (vs.map Result.Ok ++ Result.Err e s :: tail) acc
      = Result.Err e s := by
  induction vs generalizing acc with
  | nil => simp [allLoop]
  | cons v t ih => simp [allLoop, ih]

/-- On a list of synchronous Results, `partition` stays on the synchronous
path and runs the loop. -/
theorem partition_map_sync (rs : List (Result A B)) :
    partition (rs.map ResultLike.sync) = Outcome.sync (partitionLoop rs ([], [])) := by
  cases rs with
  | nil => rfl
  | cons r t =>
    unfold partition
    rw [arrayAnyAreAsync_map_sync, map_resolve_map_sync]
    simp

theorem partitionLoop_spec (rs : List (Result A B)) (oks : List A) (errs : List B) :
    partitionLoop rs (oks, errs) = (oks ++ okValues rs, errs ++ errValues rs) := by
  induction rs generalizing oks errs with
  | nil => simp [partitionLoop, okValues, errValues]
  | cons r t ih =>
    cases r with
    | Ok v => simp [partitionLoop, okValues, errValues, ih]
    | Err e s => simp [partitionLoop, okValues, errValues, ih]

/-! ### Claim theorems for C2-C6, C10 -/

/-- Claim C2: a generator that runs to completion makes `use` return `Ok` of
its return value; an `Ok` delegation hands its payload on; an `Err`
delegation makes `use` stop at once and return a fresh `Err` wrapping the
suspended error value; the continuation after the failing delegation never
influences the outcome and is never begun (same `genNext` and `genSteps` for
any two continuations); and on the spec's concrete example the result is
`Err "stop"` with only 2 of the 3 delegations ever begun. -/
theorem c2_use_short_circuits :
    (∀ (B R : Type) (g : GenProg B R) (r : R),
        genNext g = GenStep.done r → use g = Result.Ok r)
    ∧ (∀ (B R A : Type) (v : A) (k : A → GenProg B R),
        genNext (GenProg.step (Result.Ok v) k) = genNext (k v))
    ∧ (∀ (B R A : Type) (e : B) (s : List TraceE) (k : A → GenProg B R),
        use (GenProg.step (Result.Err e s) k) = Result.Err e [])
    ∧ (∀ (B R A : Type) (e : B) (s : List TraceE) (k k' : A → GenProg B R),
        genNext (GenProg.step (Result.Err e s) k)
            = genNext (GenProg.step (Result.Err e s) k')
        ∧ genSteps (GenProg.step (Result.Err e s) k)
            = genSteps (GenProg.step (Result.Err e s) k'))
    ∧ (use exC2 = Result.Err "stop" [] ∧ genSteps exC2 = 2) := by
  refine ⟨?_, ?_, ?_, ?_, ?_, ?_⟩
  · intro B R g r h
    simp [use, h]
  · intro B R A v k
    simp [genNext]
  · intro B R A e s k
    simp [use, genNext]
  · intro B R A e s k k'
    exact ⟨rfl, rfl⟩
  · rfl
  · rfl

/-- Witness for C2's completion clause at a concrete generator. -/
theorem c2_witness :
    use (GenProg.ret (5 : Nat) : GenProg String Nat) = Result.Ok 5 :=
  c2_use_short_circuits.1 String Nat (GenProg.ret 5) 5 rfl

/-- Claim C3: on a list of synchronous Results, `all` returns (synchronously)
`Ok` of the unwrapped values in input order when every element is `Ok`, and
otherwise the first `Err` in list order, short-circuiting there; in
particular `all([Ok(1), Err("first"), Ok(3), Err("second")]) = Err("first")`. -/
theorem c3_all_first_err_left_to_right :
    ∀ (A B : Type) (vs : List A) (e : B) (s : List TraceE)
      (rest : List (Result A B)),
      all ((vs.map Result.Ok).map (ResultLike.sync (B := B)))
          = Outcome.sync (Result.Ok vs)
      ∧ all ((vs.map Result.Ok ++ Result.Err e s :: rest).map ResultLike.sync)
          = Outcome.sync (Result.Err e s)
      ∧ all (([Result.Ok 1, Result.Err "first" [], Result.Ok 3,
               Result.Err "second" []] : List (Result Nat String)).map
              ResultLike.sync)
          = Outcome.sync (Result.Err "first" []) := by
  intro A B vs e s rest
  refine ⟨?_, ?_, ?_⟩
  · rw [all_map_sync, allLoop_map_ok]
    rfl
  · rw [all_map_sync, allLoop_first_err]
  · rfl

/-- Claim C4: on a list of synchronous Results, `partition` returns
(synchronously) the pair of the `Ok` payloads and the `Err` payloads, each in
input order (neither list reversed); in particular
`partition([Ok(1), Err("a"), Err("b"), Ok(2)]) = ([1,2], ["a","b"])`. -/
theorem c4_partition_preserves_order :
    ∀ (A B : Type) (rs : List (Result A B)),
      partition (rs.map ResultLike.sync)
          = Outcome.sync (okValues rs, errValues rs)
      ∧ partition (([Result.Ok 1, Result.Err "a" [], Result.Err "b" [],
                     Result.Ok 2] : List (Result Nat String)).map
                    ResultLike.sync)
          = Outcome.sync ([1, 2], ["a", "b"]) := by
  intro A B rs
  constructor
  · rw [partition_map_sync, partitionLoop_spec]
    simp
  · rfl

/-- Claim C5: `wrap(fn)` returns `Ok(r)` when the callback returns a
non-promise value `r`, `Err(x)` when it throws `x`, and, when it returns a
promise, an async handle resolving to `Ok` of the fulfilment value or `Err`
of the rejection reason; every case of the callback's behaviour yields a
value (no exception escapes). -/
theorem c5_wrap_protects :
    ∀ (A E : Type) (v : A) (e : E),
      wrap (CallOutcome.ret v : CallOutcome A E) = Outcome.sync (Result.Ok v)
      ∧ wrap (CallOutcome.thrown e : CallOutcome A E)
          = Outcome.sync (Result.Err e [])
      ∧ wrap (CallOutcome.retPromise (PromiseOutcome.fulfilled v)
              : CallOutcome A E)
          = Outcome.async (Result.Ok v)
      ∧ wrap (CallOutcome.retPromise (PromiseOutcome.rejected e)
              : CallOutcome A E)
          = Outcome.async (Result.Err e []) := by
  intro A E v e
  exact ⟨rfl, rfl, rfl, rfl⟩

/-- Claim C6: `AsyncResult.from` on a synchronous Result produces a handle
that resolves to that very Result (same case, same payload) — likewise for a
promised Result — and on an existing handle returns that handle itself,
unchanged (idempotent, never double-wrapped). -/
theorem c6_async_from_round_trip :
    ∀ (A B : Type) (r : Result A B) (h : AsyncResult A B),
      (AsyncResult.fromAny (MaybeAsyncResult.res r)).resolved = r
      ∧ AsyncResult.fromAny (MaybeAsyncResult.handle h) = h
      ∧ (AsyncResult.fromAny (MaybeAsyncResult.promiseRes r)).resolved = r := by
  intro A B r h
  exact ⟨rfl, rfl, rfl⟩

/-- Claim C10: `all` on the empty list returns the synchronous `Ok([])`
immediately (the `results.length === 0` guard), and is not routed to the
asynchronous path, even though `AsyncResult.is` classifies the empty array as
all-async (`[].every(...)` is vacuously true); `arrayAnyAreAsync([])` is
`false`. -/
theorem c10_all_empty_is_sync :
    ∀ (A B : Type),
      all ([] : List (ResultLike A B)) = Outcome.sync (Result.Ok [])
      ∧ AsyncResult.isArr ([] : List (ResultLike A B)) = true
      ∧ arrayAnyAreAsync ([] : List (ResultLike A B)) = false := by
  intro A B
  exact ⟨rfl, rfl, rfl⟩

/-! ### Store lemmas and claim C8 -/

theorem getD_append_left {α : Type} (l₁ l₂ : List α) (i : Nat) (d : α)
    (h : i < l₁.length) : (l₁ ++ l₂).getD i d = l₁.getD i d := by
  induction l₁ generalizing i with
  | nil => simp at h
  | cons a t ih =>
    cases i with
    | zero => simp
    | succ n =>
      simp only [List.cons_append, List.getD_cons_succ]
      exact ih n (by simp [List.length_cons] at h; omega)

theorem getD_concat_self {α : Type} (l : List α) (x d : α) :
    (l ++ [x]).getD l.length d = x := by
  induction l with
  | nil => rfl
  | cons a t ih => simp

theorem getD_set_ne {α : Type} (l : List α) (i j : Nat) (x d : α)
    (h : j ≠ i) : (l.set i x).getD j d = l.getD j d := by
  induction l generalizing i j with
  | nil => simp
  | cons a t ih =>
    cases i with
    | zero =>
      cases j with
      | zero => exact absurd rfl h
      | succ m => simp [List.set]
    | succ n =>
      cases j with
      | zero => simp [List.set]
      | succ m =>
        simp only [List.set, List.getD_cons_succ]
        exact ih n m (fun hh => h (by simp [hh]))

/-- Claim C8: for every store, `Err` object `e` (with a valid trace-array
reference) and tag `g`, `e.trace(g)` produces a NEW `Err` (a fresh array
reference) whose trace equals `e`'s trace with `g` appended, while `e`'s own
trace array is left unmodified; and inheriting `e`'s trace onto a different
`Err` object (`_inheritStack`, as a recovery chain does) also leaves `e`'s
array unmodified, returning the receiver itself. -/
theorem c8_trace_immutable :
    ∀ (B : Type) (σ : Store) (e : ErrObj B) (g : TraceE),
      e.ref < σ.length →
      (traceOp σ e g).1.ref ≠ e.ref
      ∧ (traceOp σ e g).2.getD (traceOp σ e g).1.ref []
          = σ.getD e.ref [] ++ [g]
      ∧ (traceOp σ e g).2.getD e.ref [] = σ.getD e.ref []
      ∧ ∀ (r : ErrObj B), r.ref ≠ e.ref →
          (inheritStackOp σ r (σ.getD e.ref [])).2.getD e.ref []
              = σ.getD e.ref []
          ∧ (inheritStackOp σ r (σ.getD e.ref [])).1 = r := by
  intro B σ e g h
  refine ⟨?_, ?_, ?_, ?_⟩
  · exact fun hh => absurd (hh ▸ h) (Nat.lt_irrefl _)
  · exact getD_concat_self σ _ []
  · exact getD_append_left σ _ e.ref [] h
  · intro r hr
    exact ⟨getD_set_ne σ r.ref e.ref _ [] (Ne.symm hr), rfl⟩

/-- Witness for C8 at a concrete store: one array `["a"]` at reference 0,
`e` pointing at it, tag `"b"`, and a receiver at a different reference. -/
theorem c8_witness :
    ((0 : Nat) < 1 ∧ (5 : Nat) ≠ 0)
    ∧ (traceOp (B := String) [[⟨"a"⟩]] ⟨"x", 0⟩ ⟨"b"⟩).1.ref ≠ 0
    ∧ (traceOp (B := String) [[⟨"a"⟩]] ⟨"x", 0⟩ ⟨"b"⟩).2.getD 0 []
        = ([[⟨"a"⟩]] : Store).getD 0 []
    ∧ (inheritStackOp (B := String) [[⟨"a"⟩]] ⟨"y", 5⟩
        (([[⟨"a"⟩]] : Store).getD 0 [])).2.getD 0 []
        = ([[⟨"a"⟩]] : Store).getD 0 [] := by
  have h0 : (0 : Nat) < ([[⟨"a"⟩]] : Store).length := by decide
  have h5 : (ErrObj.ref (B := String) ⟨"y", 5⟩) ≠ 0 := by decide
  have main := c8_trace_immutable String [[⟨"a"⟩]] ⟨"x", 0⟩ ⟨"b"⟩ h0
  exact ⟨⟨by decide, by decide⟩, main.1, main.2.2.1, (main.2.2.2 ⟨"y", 5⟩ h5).1⟩

end Uitkomst
